import Mathlib

/-!
Verification development for the price-tracker repository.

The JavaScript source is embedded shallowly: pure computations become Lean
functions over `Nat`, `ℚ`, `String` and `List`; the stateful job is a function
of an explicit environment of collaborator outcomes; fallible collaborators
return `Except`. JavaScript numbers are modelled exactly (`ℚ` for finite
values, with explicit NaN/Infinity constructors where `parseFloat` can
produce them); binary floating-point rounding error is outside the model.
-/

namespace PriceTracker

/-! ### SHA-256 (Node `crypto.createHash` with algorithm sha256), over byte lists -/

/-- Truncation to a 32-bit word. -/
def w32 (n : Nat) : Nat := n % 4294967296

/-- 32-bit right rotation. -/
def rotr32 (n x : Nat) : Nat := w32 ((x >>> n) ||| (x <<< (32 - n)))

/-- The 64 SHA-256 round constants (FIPS 180-4, in decimal). -/
def sha256K : List Nat :=
  [1116352408, 1899447441, 3049323471, 3921009573, 961987163, 1508970993,
   2453635748, 2870763221, 3624381080, 310598401, 607225278, 1426881987,
   1925078388, 2162078206, 2614888103, 3248222580, 3835390401, 4022224774,
   264347078, 604807628, 770255983, 1249150122, 1555081692, 1996064986,
   2554220882, 2821834349, 2952996808, 3210313671, 3336571891, 3584528711,
   113926993, 338241895, 666307205, 773529912, 1294757372, 1396182291,
   1695183700, 1986661051, 2177026350, 2456956037, 2730485921, 2820302411,
   3259730800, 3345764771, 3516065817, 3600352804, 4094571909, 275423344,
   430227734, 506948616, 659060556, 883997877, 958139571, 1322822218,
   1537002063, 1747873779, 1955562222, 2024104815, 2227730452, 2361852424,
   2428436474, 2756734187, 3204031479, 3329325298]

/-- The SHA-256 initial hash value (FIPS 180-4, in decimal). -/
def sha256H0 : List Nat :=
  [1779033703, 3144134277, 1013904242, 2773480762,
   1359893119, 2600822924, 528734635, 1541459225]

/-- Message padding: append 0x80, zero bytes to 56 mod 64, then the bit length
as 8 big-endian bytes. -/
def sha256Pad (msg : List Nat) : List Nat :=
  let L := msg.length
  let z := (119 - L % 64) % 64
  let bitLen := 8 * L
  msg ++ [0x80] ++ List.replicate z 0 ++
    ((List.range 8).map (fun k => (bitLen >>> (8 * (7 - k))) % 256))

/-- Split a byte list into 64-byte blocks; structural recursion on a fuel
bound (one block consumes at least one byte, so the length suffices). -/
def chunks64Go : Nat → List Nat → List (List Nat)
  | 0, _ => []
  | _, [] => []
  | fuel + 1, a :: rest => (a :: rest.take 63) :: chunks64Go fuel (rest.drop 63)

/-- Split a byte list into 64-byte blocks. -/
def chunks64 (l : List Nat) : List (List Nat) := chunks64Go l.length l

/-- Big-endian 4-byte groups of a block, as 32-bit words. -/
def blockWords : List Nat → List Nat
  | a :: b :: c :: d :: rest =>
      (a * 16777216 + b * 65536 + c * 256 + d) :: blockWords rest
  | _ => []

def smallSigma0 (x : Nat) : Nat := (rotr32 7 x) ^^^ (rotr32 18 x) ^^^ (x >>> 3)

def smallSigma1 (x : Nat) : Nat := (rotr32 17 x) ^^^ (rotr32 19 x) ^^^ (x >>> 10)

def bigSigma0 (x : Nat) : Nat := (rotr32 2 x) ^^^ (rotr32 13 x) ^^^ (rotr32 22 x)

def bigSigma1 (x : Nat) : Nat := (rotr32 6 x) ^^^ (rotr32 11 x) ^^^ (rotr32 25 x)

/-- SHA-256 choice function; bitwise not is xor with all ones. -/
def chF (x y z : Nat) : Nat := (x &&& y) ^^^ ((x ^^^ 4294967295) &&& z)

def majF (x y z : Nat) : Nat := (x &&& y) ^^^ (x &&& z) ^^^ (y &&& z)

/-- Message schedule: the 16 block words extended to 64 words. -/
def sha256W (ws : List Nat) : List Nat :=
  (List.range 48).foldl
    (fun w _ =>
      let n := w.length
      let t := smallSigma1 (w.getD (n - 2) 0) + w.getD (n - 7) 0 +
               smallSigma0 (w.getD (n - 15) 0) + w.getD (n - 16) 0
      w ++ [w32 t])
    ws

/-- Working state of the compression function. -/
structure Sha256State where
  a : Nat
  b : Nat
  c : Nat
  d : Nat
  e : Nat
  f : Nat
  g : Nat
  h : Nat

/-- One round of the compression function. -/
def sha256Round (st : Sha256State) (ki wi : Nat) : Sha256State :=
  let t1 := w32 (st.h + bigSigma1 st.e + chF st.e st.f st.g + ki + wi)
  let t2 := w32 (bigSigma0 st.a + majF st.a st.b st.c)
  ⟨w32 (t1 + t2), st.a, st.b, st.c, w32 (st.d + t1), st.e, st.f, st.g⟩

/-- Compress one 64-byte block into the running hash. -/
def sha256Compress (hs : List Nat) (block : List Nat) : List Nat :=
  let ws := sha256W (blockWords block)
  let st0 : Sha256State :=
    ⟨hs.getD 0 0, hs.getD 1 0, hs.getD 2 0, hs.getD 3 0,
     hs.getD 4 0, hs.getD 5 0, hs.getD 6 0, hs.getD 7 0⟩
  let st := (sha256K.zip ws).foldl (fun s p => sha256Round s p.1 p.2) st0
  [w32 (hs.getD 0 0 + st.a), w32 (hs.getD 1 0 + st.b), w32 (hs.getD 2 0 + st.c),
   w32 (hs.getD 3 0 + st.d), w32 (hs.getD 4 0 + st.e), w32 (hs.getD 5 0 + st.f),
   w32 (hs.getD 6 0 + st.g), w32 (hs.getD 7 0 + st.h)]

/-- SHA-256 digest (32 bytes) of a byte list. -/
def sha256Bytes (msg : List Nat) : List Nat :=
  let hs := (chunks64 (sha256Pad msg)).foldl sha256Compress sha256H0
  (hs.map (fun w => [(w >>> 24) % 256, (w >>> 16) % 256, (w >>> 8) % 256, w % 256])).flatten

/-- Lowercase hex digit. -/
def hexDigit (n : Nat) : Char :=
  if n < 10 then Char.ofNat (48 + n) else Char.ofNat (87 + n)

/-- Lowercase hex encoding of a byte list (Node digest with encoding hex). -/
def bytesToHex (bs : List Nat) : String :=
  String.mk ((bs.map (fun b => [hexDigit (b / 16), hexDigit (b % 16)])).flatten)

/-- UTF-8 encoding of one character as bytes. -/
def utf8EncodeCharNum (c : Char) : List Nat :=
  let n := c.toNat
  if n < 128 then [n]
  else if n < 2048 then [192 + n / 64, 128 + n % 64]
  else if n < 65536 then [224 + n / 4096, 128 + (n / 64) % 64, 128 + n % 64]
  else [240 + n / 262144, 128 + (n / 4096) % 64, 128 + (n / 64) % 64, 128 + n % 64]

/-- UTF-8 bytes of a string (Node hash update on a string defaults to utf8). -/
def utf8Bytes (s : String) : List Nat := (s.data.map utf8EncodeCharNum).flatten

/-- scraper.js lines 8 and 73:
`crypto.createHash(sha256hex of the url)` — the hex-encoded SHA-256 digest of
the UTF-8 bytes of the exact URL string, with no normalization. -/
def fingerprint (url : String) : String := bytesToHex (sha256Bytes (utf8Bytes url))

set_option maxRecDepth 100000

/-- Sanity anchor for the hash embedding: the FIPS 180-2 test vector for the
three-byte message abc. -/
theorem sha256_test_vector :
    fingerprint "abc" =
      "ba7816bf8f01cfea414140de5dae2223b00361a396177a9cb410ff61f20015ad" := by
  decide

/-! ### JavaScript number and string primitives used by the scraper -/

/-- A JavaScript number as produced by `parseFloat` and the arithmetic in this
repository: NaN, an infinity, or a finite value (modelled exactly as a
rational; binary floating-point rounding is outside the model). -/
inductive JsNumber where
  | nan
  | posInf
  | negInf
  | fin (q : ℚ)
deriving DecidableEq

/-- Negation, for a leading minus sign in `parseFloat`. -/
def JsNumber.neg : JsNumber → JsNumber
  | .nan => .nan
  | .posInf => .negInf
  | .negInf => .posInf
  | .fin q => .fin (-q)

/-- JavaScript StrWhiteSpace characters (the common ones; the inputs reaching
`trim`/`parseFloat` in this repository contain at most these). -/
def jsWhitespace (c : Char) : Bool :=
  c == ' ' || c == '\t' || c == '\n' || c == '\r' || c == '\x0b' || c == '\x0c'

/-- JavaScript `String.prototype.trim`: strip whitespace from both ends. -/
def jsTrim (s : String) : String :=
  String.mk (((s.data.dropWhile jsWhitespace).reverse.dropWhile jsWhitespace).reverse)

/-- Numeric value of a digit list. -/
def digitsToNat (ds : List Char) : Nat :=
  ds.foldl (fun a c => 10 * a + (c.toNat - 48)) 0

/-- `NaN` test (JavaScript global `isNaN` on a number). -/
def JsNumber.isNaN : JsNumber → Bool
  | .nan => true
  | _ => false

/-- Exponent part of a decimal literal: an optional `e`/`E`, optional sign and
digits; contributes zero when no digits follow the marker. -/
def parseExp (l : List Char) : Int :=
  match l with
  | c :: rest =>
    if c == 'e' || c == 'E' then
      match rest with
      | '+' :: ds =>
          let d := ds.takeWhile Char.isDigit
          if d = [] then 0 else (digitsToNat d : Int)
      | '-' :: ds =>
          let d := ds.takeWhile Char.isDigit
          if d = [] then 0 else -(digitsToNat d : Int)
      | ds =>
          let d := ds.takeWhile Char.isDigit
          if d = [] then 0 else (digitsToNat d : Int)
    else 0
  | [] => 0

/-- Syntactic content of the longest decimal-literal prefix accepted by
`parseFloat`: nothing (NaN), the `Infinity` literal, or integer digits,
fraction digits (with their count, for the scale) and a decimal exponent. -/
inductive ParsedFloat where
  | nan
  | inf
  | fin (ip fp : Nat) (fpLen : Nat) (e : Int)
deriving DecidableEq

/-- Longest prefix of an unsigned StrDecimalLiteral: `Infinity`,
`digits [. digits] [exp]`, or `. digits [exp]`; NaN when no prefix parses. -/
def parseFloatCore (l : List Char) : ParsedFloat :=
  if l.take 8 = "Infinity".data then .inf
  else
    let ip := l.takeWhile Char.isDigit
    let r1 := l.dropWhile Char.isDigit
    match ip, r1 with
    | [], '.' :: r2 =>
        let fp := r2.takeWhile Char.isDigit
        if fp = [] then .nan
        else .fin 0 (digitsToNat fp) fp.length (parseExp (r2.dropWhile Char.isDigit))
    | [], _ => .nan
    | _ :: _, '.' :: r2 =>
        let fp := r2.takeWhile Char.isDigit
        .fin (digitsToNat ip) (digitsToNat fp) fp.length (parseExp (r2.dropWhile Char.isDigit))
    | _ :: _, _ => .fin (digitsToNat ip) 0 0 (parseExp r1)

/-- Ten to a signed power, as a rational. -/
def pow10 : Int → ℚ
  | .ofNat n => (10 : ℚ) ^ n
  | .negSucc n => 1 / (10 : ℚ) ^ (n + 1)

/-- The number denoted by a parsed decimal literal. -/
def ParsedFloat.value : ParsedFloat → JsNumber
  | .nan => .nan
  | .inf => .posInf
  | .fin ip fp fpLen e => .fin (((ip : ℚ) + (fp : ℚ) / (10 : ℚ) ^ fpLen) * pow10 e)

/-- JavaScript `parseFloat`: skip leading whitespace, optional sign, then the
longest decimal-literal prefix; NaN when none exists. -/
def jsParseFloat (s : String) : JsNumber :=
  let l := s.data.dropWhile jsWhitespace
  match l with
  | '+' :: rest => (parseFloatCore rest).value
  | '-' :: rest => (parseFloatCore rest).value.neg
  | _ => (parseFloatCore l).value

/-! ### Extraction engine (`src/logic/scraper.js`, `trackPrice`) -/

/-- The span carrying `span[data-test=price]`: its direct text with children
removed (scraper.js line 45) and the text of its
`sup[data-test=price-fraction]` descendant, the empty string when that `sup`
is absent (cheerio `.text()` of an empty selection, line 48). -/
structure PriceSpanData where
  ownText : String
  fractionText : String
deriving DecidableEq

/-- The parts of a fetched page the scraper queries. `titleText` is the text
of `h1.page-heading span[data-test=title]` when that selection is non-empty;
`priceSection` is whether `section[data-test=prices]` matches; `priceSpan` is
the `span[data-test=price]` inside it when present. -/
structure PageData where
  titleText : Option String
  priceSection : Bool
  priceSpan : Option PriceSpanData
deriving DecidableEq

/-- Outcome of `axios.get(url)`: a rejected promise (timeout, DNS failure,
non-2xx status, transport error) or a document. -/
inductive FetchOutcome where
  | fetchError
  | ok (page : PageData)
deriving DecidableEq

/-- The record returned by `trackPrice`. `id` and `date` are plain (never
null) fields; `price` and `title` are nullable. A price is never NaN (the
`isNaN` guard replaces NaN by null). -/
structure ExtractionResult where
  id : String
  url : String
  price : Option JsNumber
  title : Option String
  date : String
deriving DecidableEq

/-- scraper.js lines 44-64: trim the direct text of the price span and the
fraction text; null when either is empty (JS falsiness of the empty string,
line 53); otherwise join them with a decimal point, `parseFloat`, and null
when the result is NaN. -/
def composePrice (mainRaw fracRaw : String) : Option JsNumber :=
  let mainPrice := jsTrim mainRaw
  let fraction := jsTrim fracRaw
  if mainPrice = "" ∨ fraction = "" then none
  else
    let fullPrice := jsParseFloat (mainPrice ++ "." ++ fraction)
    if fullPrice.isNaN then none else some fullPrice

/-- scraper.js lines 5-77, `trackPrice`. The try block computes
`id = fingerprint url` and `date = now` before the fetch; every failure path
returns a record rather than throwing. The catch path (entered when
`axios.get` rejects) recomputes the same id and a fresh timestamp `nowCatch`
(lines 72-75). The function is total: no exception escapes. -/
def trackPrice (url : String) (outcome : FetchOutcome) (now nowCatch : String) :
    ExtractionResult :=
  match outcome with
  | .fetchError => ⟨fingerprint url, url, none, none, nowCatch⟩
  | .ok page =>
    let id := fingerprint url
    let date := now
    let title := page.titleText.map jsTrim
    if !page.priceSection then ⟨id, url, none, title, date⟩
    else
      match page.priceSpan with
      | none => ⟨id, url, none, title, date⟩
      | some span => ⟨id, url, composePrice span.ownText span.fractionText, title, date⟩

/-! ### Persistence rows and the prices service (`src/services/prices.js`) -/

/-- A row of the prices table. `deleted_at = none` marks an active row
(soft-delete convention). -/
structure PriceRow where
  product_id : String
  price : Option JsNumber
  currency : Option String
  date : String
  deleted_at : Option String
deriving DecidableEq

/-- services/prices.js lines 17-31, `createPrice`: the stored row takes the
given product id and price; `currency` defaults to null when falsy (the empty
string models a missing value) and `date` defaults to the current timestamp
when falsy, per the JS or-defaults on lines 22-23. -/
def createPriceRow (product_id : String) (price : JsNumber) (currency : String)
    (date now : String) : PriceRow :=
  { product_id := product_id
    price := some price
    currency := if currency = "" then none else some currency
    date := if date = "" then now else date
    deleted_at := none }

/-- services/prices.js lines 130-142, `getAllPricesByDate`, through
`BaseService.getAll` with an exact-equality filter on the `date` column and
the implicit active-rows filter (`deleted_at` is null). The `date` argument
defaults at the call site to the exact current ISO timestamp. -/
def getAllPricesByDate (db : List PriceRow) (date : String) : List PriceRow :=
  db.filter (fun r => r.deleted_at == none && r.date == date)

/-! ### Tracking job orchestrator (`src/jobs/tracker.js`) -/

/-- A product as the tracker consumes it (only `id` and `url` are read). -/
structure Product where
  id : String
  url : String
deriving DecidableEq

/-- Collaborator outcomes for one run of the tracker job:
`listProducts` models `productsService.getAll()`, `listPricesToday` models
`pricesService.getAllPricesByDate()`, `extract` models `await trackPrice`,
and `persistOk` tells whether `pricesService.createPrice` succeeds on a row. -/
structure TrackerEnv where
  listProducts : Except String (List Product)
  listPricesToday : Except String (List PriceRow)
  extract : String → Except String ExtractionResult
  persistOk : PriceRow → Bool

/-- tracker.js lines 20-40, one iteration of the loop body. The whole body is
inside a try/catch, so an extraction or persistence error is swallowed and
the iteration yields no row. Returns the extraction attempt (the URL passed
to `trackPrice`) and the rows successfully persisted. A row is only written
when the scraped price is neither null nor undefined (line 25), with the
fixed currency EUR and the extraction result's date (lines 26-31). -/
def processProduct (env : TrackerEnv) (now : String) (p : Product) :
    List String × List PriceRow :=
  match env.extract p.url with
  | .error _ => ([p.url], [])
  | .ok scraped =>
    match scraped.price with
    | some v =>
      let row := createPriceRow p.id v "EUR" scraped.date now
      if env.persistOk row then ([p.url], [row]) else ([p.url], [])
    | none => ([p.url], [])

/-- The sequential for-loop of tracker.js lines 20-40: attempts and persisted
rows accumulate in listing order, one product at a time. -/
def trackerLoop (env : TrackerEnv) (now : String) : List Product → List String × List PriceRow
  | [] => ([], [])
  | p :: rest =>
    let r := processProduct env now p
    let rs := trackerLoop env now rest
    (r.1 ++ rs.1, r.2 ++ rs.2)

/-- tracker.js lines 13-17: the ids carried by today's price rows form the
already-tracked set (`new Set(prices.map(price.product_id))`); the products
kept are those whose id is not in it, by `Array.prototype.filter`, which
preserves listing order. -/
def productsToTrack (products : List Product) (prices : List PriceRow) : List Product :=
  let productIdsWithPrices := prices.map (fun r => r.product_id)
  products.filter (fun p => !(productIdsWithPrices.contains p.id))

/-- tracker.js lines 5-45, `trackerJob`: load products, load today's prices,
filter, then loop. A failure of either load is rethrown by the outer catch
(lines 41-44) before any product is processed; per-product failures are
contained in `processProduct`. The value of a completed run is the list of
extraction attempts and the list of persisted rows. -/
def trackerJob (env : TrackerEnv) (now : String) :
    Except String (List String × List PriceRow) :=
  match env.listProducts with
  | .error e => .error e
  | .ok products =>
    match env.listPricesToday with
    | .error e => .error e
    | .ok prices => .ok (trackerLoop env now (productsToTrack products prices))

/-! ### Price history analyzer (`src/routes/products.js` lines 171-191,
backed by `src/services/prices.js` `getLatestPrice`/`getPreviousPrice`) -/

/-- services/prices.js lines 59-71: first row of the date-descending series
for the product (query limit 1), or null when there is none. The argument is
the product's price series ordered most-recent-first, as the date-descending
order-by returns it. -/
def getLatestPrice : List PriceRow → Option PriceRow
  | [] => none
  | a :: _ => some a

/-- services/prices.js lines 78-91: the row at index 1 of the date-descending
series (query limit 2), or null when fewer than two rows exist. -/
def getPreviousPrice : List PriceRow → Option PriceRow
  | _ :: b :: _ => some b
  | _ => none

/-- A nullable numeric column used in JS arithmetic: null coerces to zero. -/
def jsColToNumber : Option JsNumber → JsNumber
  | none => .fin 0
  | some v => v

/-- JavaScript subtraction on numbers. -/
def jsSub : JsNumber → JsNumber → JsNumber
  | .nan, _ => .nan
  | _, .nan => .nan
  | .posInf, .posInf => .nan
  | .posInf, .negInf => .posInf
  | .posInf, .fin _ => .posInf
  | .negInf, .negInf => .nan
  | .negInf, .posInf => .negInf
  | .negInf, .fin _ => .negInf
  | .fin _, .posInf => .negInf
  | .fin _, .negInf => .posInf
  | .fin a, .fin b => .fin (a - b)

/-- JavaScript division on numbers (signed zero is outside the model: a zero
divisor counts as positive zero). -/
def jsDiv : JsNumber → JsNumber → JsNumber
  | .nan, _ => .nan
  | _, .nan => .nan
  | .posInf, .posInf => .nan
  | .posInf, .negInf => .nan
  | .negInf, .posInf => .nan
  | .negInf, .negInf => .nan
  | .posInf, .fin b => if b < 0 then .negInf else .posInf
  | .negInf, .fin b => if b < 0 then .posInf else .negInf
  | .fin _, .posInf => .fin 0
  | .fin _, .negInf => .fin 0
  | .fin a, .fin b =>
      if b = 0 then (if a = 0 then .nan else if a < 0 then .negInf else .posInf)
      else .fin (a / b)

/-- JavaScript multiplication by the literal 100. -/
def jsMul100 : JsNumber → JsNumber
  | .nan => .nan
  | .posInf => .posInf
  | .negInf => .negInf
  | .fin q => .fin (q * 100)

/-- `parseFloat(x.toFixed(2))` on a number: NaN and the infinities round-trip
through their string forms unchanged; a finite value is rounded to the
nearest hundredth, ties to the larger candidate (the ECMA `toFixed` rule:
among the two nearest, the larger numerator is chosen). -/
def jsToFixed2Round : JsNumber → JsNumber
  | .nan => .nan
  | .posInf => .posInf
  | .negInf => .negInf
  | .fin q => .fin ((⌊(100 : ℚ) * q + 1 / 2⌋ : ℤ) / (100 : ℚ))

/-- The price fields the products listing adds to one product. -/
structure Enriched where
  latestPrice : Option JsNumber
  latestPriceDate : Option String
  previousPrice : Option JsNumber
  previousPriceDate : Option String
  priceChangeRate : Option JsNumber
deriving DecidableEq

/-- routes/products.js lines 171-191: derive the enrichment fields from the
product's most-recent-first price series. The rate is computed only when both
rows exist and the previous row's price column is neither null nor zero
(line 177); it is `((latest.price - previous.price) / previous.price) * 100`
with a null latest price coercing to zero (JS arithmetic), then rounded via
`parseFloat(rate.toFixed(2))` (line 188). -/
def enrichProduct (series : List PriceRow) : Enriched :=
  let latestPrice := getLatestPrice series
  let previousPrice := getPreviousPrice series
  let priceChangeRate : Option JsNumber :=
    match latestPrice, previousPrice with
    | some l, some p =>
      match p.price with
      | some pv =>
          if pv = .fin 0 then none
          else some (jsMul100 (jsDiv (jsSub (jsColToNumber l.price) pv) pv))
      | none => none
    | _, _ => none
  { latestPrice := match latestPrice with | some l => l.price | none => none
    latestPriceDate := latestPrice.map (fun l => l.date)
    previousPrice := match previousPrice with | some p => p.price | none => none
    previousPriceDate := previousPrice.map (fun p => p.date)
    priceChangeRate := priceChangeRate.map jsToFixed2Round }

/-! ### Product creation (`src/routes/products.js` lines 307-343 and
`src/services/products.js` lines 17-32) -/

/-- The request body after `validateCreateProduct` succeeded. -/
structure ValidatedCreate where
  name : String
  url : String
deriving DecidableEq

/-- The product row written by `ProductsService.createProduct`. -/
structure CreatedProduct where
  id : String
  title : String
  url : String
  name : String
deriving DecidableEq

/-- Outcome of the POST handler after validation: the duplicate-URL rejection
or the created product together with the initial price rows written and the
scraped price/date echoed in the response. -/
inductive PostResult where
  | badRequest (msg : String)
  | created (product : CreatedProduct) (priceRows : List PriceRow)
      (scrapedPrice : Option JsNumber) (scrapedDate : String)
deriving DecidableEq

/-- JavaScript `a || b` on a nullable string: the fallback is taken when `a`
is null or the empty string (both falsy). -/
def jsOrString (a : Option String) (b : String) : String :=
  match a with
  | some s => if s = "" then b else s
  | none => b

/-- routes/products.js lines 307-343, the POST handler after validation:
reject when a product with the URL already exists (line 315); otherwise the
created product takes `id` and `url` from the extraction result, its title is
`scrapedData.title || validatedData.name` (line 323, JS falsy fallback), and
an initial price row is written exactly when the scraped price is non-null
(lines 329-336), with currency EUR and the scraped date. -/
def postProduct (validated : ValidatedCreate) (existing : Option CreatedProduct)
    (scraped : ExtractionResult) (now : String) : PostResult :=
  match existing with
  | some _ => .badRequest "Product with this URL already exists"
  | none =>
    let product : CreatedProduct :=
      { id := scraped.id
        title := jsOrString scraped.title validated.name
        url := scraped.url
        name := validated.name }
    let priceRows :=
      match scraped.price with
      | some v => [createPriceRow product.id v "EUR" scraped.date now]
      | none => []
    .created product priceRows scraped.price scraped.date

/-- Modelled from the spec for comparison with the code's rounding chain:
rounding to 2 decimal places with half-up ties (of two candidates the larger
is chosen, matching ECMA `toFixed`). -/
def specRoundHalfUp2 (q : ℚ) : ℚ := ((⌊(100 : ℚ) * q + 1 / 2⌋ : ℤ) : ℚ) / 100

/-! ### Concrete scenario for per-product failure isolation -/

def c4ProductA : Product := ⟨"a", "ua"⟩

def c4ProductB : Product := ⟨"b", "ub"⟩

def c4ProductC : Product := ⟨"c", "uc"⟩

/-- The existing sample for product B in the current period. -/
def c4RowB : PriceRow := ⟨"b", some (.fin 10), some "EUR", "d0", none⟩

/-- Run environment where extraction of product A's url throws and every
other extraction returns a scraped price of 7 dated dc. -/
def c4Env : TrackerEnv :=
  { listProducts := .ok [c4ProductA, c4ProductB, c4ProductC]
    listPricesToday := .ok [c4RowB]
    extract := fun u =>
      if u = "ua" then .error "boom"
      else .ok ⟨"cid", u, some (.fin 7), none, "dc"⟩
    persistOk := fun _ => true }

/-! ### Concrete two-run scenario for same-period idempotence -/

def c6Product : Product := ⟨"pid", "purl"⟩

/-- Timestamp at which the first run calls `getAllPricesByDate()`. -/
def c6Now1 : String := "2024-01-15T10:00:00.000Z"

/-- Timestamp `new Date().toISOString()` takes inside the first run's
extraction, milliseconds later the same day. -/
def c6Date1 : String := "2024-01-15T10:00:00.100Z"

/-- Timestamp at which the second run calls `getAllPricesByDate()`, later the
same calendar day. -/
def c6Now2 : String := "2024-01-15T11:00:00.000Z"

/-- Timestamp taken inside the second run's extraction. -/
def c6Date2 : String := "2024-01-15T11:00:00.100Z"

/-- The sample the first run persists. -/
def c6Row1 : PriceRow := ⟨"pid", some (.fin 39), some "EUR", c6Date1, none⟩

/-- The sample the second run persists — a duplicate for the same product in
the same calendar day. -/
def c6Row2 : PriceRow := ⟨"pid", some (.fin 39), some "EUR", c6Date2, none⟩

/-- First run: empty database; the dedup read filters the database on exact
equality with the run's own current timestamp. -/
def c6Env1 : TrackerEnv :=
  { listProducts := .ok [c6Product]
    listPricesToday := .ok (getAllPricesByDate [] c6Now1)
    extract := fun u => .ok ⟨"pid", u, some (.fin 39), none, c6Date1⟩
    persistOk := fun _ => true }

/-- Second run, after the first run's write persisted `c6Row1` and with the
read reflecting it: the database now holds `c6Row1`, and the dedup read again
filters on exact equality with the second run's current timestamp. -/
def c6Env2 : TrackerEnv :=
  { listProducts := .ok [c6Product]
    listPricesToday := .ok (getAllPricesByDate [c6Row1] c6Now2)
    extract := fun u => .ok ⟨"pid", u, some (.fin 39), none, c6Date2⟩
    persistOk := fun _ => true }

/-! ### Helper lemmas -/

/-- Every branch of `trackPrice` stamps the result with the fingerprint of
the url: the try block computes it up front, the catch block recomputes it. -/
theorem trackPrice_id (url : String) (outcome : FetchOutcome) (now nowCatch : String) :
    (trackPrice url outcome now nowCatch).id = fingerprint url := by
  cases outcome with
  | fetchError => rfl
  | ok page =>
    rcases page with ⟨t, sec, span⟩
    cases sec <;> cases span <;> rfl

/-- Every branch of `trackPrice` echoes the url. -/
theorem trackPrice_url (url : String) (outcome : FetchOutcome) (now nowCatch : String) :
    (trackPrice url outcome now nowCatch).url = url := by
  cases outcome with
  | fetchError => rfl
  | ok page =>
    rcases page with ⟨t, sec, span⟩
    cases sec <;> cases span <;> rfl

/-- On the try path the date is the timestamp taken before the fetch. -/
theorem trackPrice_date_ok (url : String) (page : PageData) (now nowCatch : String) :
    (trackPrice url (.ok page) now nowCatch).date = now := by
  rcases page with ⟨t, sec, span⟩
  cases sec <;> cases span <;> rfl

/-! ### Claim theorems -/

/-- C1: for every input URL, `trackPrice` never raises — it is a total
function of the URL and the fetch outcome (every JS failure mode of the body
is caught by the try/catch, which itself only hashes the url and builds a
record) — its result always carries the fingerprint id, the echoed url and a
timestamp taken by the run, and a failed fetch (timeout, DNS, non-2xx,
transport error) yields `{id, url, price: null, title: null, date}`. -/
theorem c1_extraction_total (url : String) (now nowCatch : String) :
    (∀ outcome, (trackPrice url outcome now nowCatch).id = fingerprint url ∧
        (trackPrice url outcome now nowCatch).url = url) ∧
    (∀ page, (trackPrice url (.ok page) now nowCatch).date = now) ∧
    trackPrice url .fetchError now nowCatch =
      ⟨fingerprint url, url, none, none, nowCatch⟩ :=
  ⟨fun outcome => ⟨trackPrice_id url outcome now nowCatch,
      trackPrice_url url outcome now nowCatch⟩,
   fun page => trackPrice_date_ok url page now nowCatch, rfl⟩

/-- C9: the id is a pure deterministic function of the exact URL string, the
hex-encoded SHA-256 of its UTF-8 bytes with no normalization: any two
extraction calls on the same URL — regardless of fetch outcome, so including
one success and one failure — give the same id, while a trailing slash or a
reordered query string gives a different id. -/
theorem c9_fingerprint_identity :
    (∀ u, fingerprint u = bytesToHex (sha256Bytes (utf8Bytes u))) ∧
    (∀ u o1 o2 n1 n2 n3 n4,
        (trackPrice u o1 n1 n2).id = (trackPrice u o2 n3 n4).id) ∧
    fingerprint "https://www.bol.com/nl/nl/p/laptop/12345678/" ≠
      fingerprint "https://www.bol.com/nl/nl/p/laptop/12345678" ∧
    fingerprint "https://shop.example/p?a=1&b=2" ≠
      fingerprint "https://shop.example/p?b=2&a=1" :=
  ⟨fun _ => rfl,
   fun u o1 o2 n1 n2 n3 n4 =>
     (trackPrice_id u o1 n1 n2).trans (trackPrice_id u o2 n3 n4).symm,
   by decide, by decide⟩

/-- C3: price composition — the trimmed integer-part and fraction-part texts
are joined as integer.fraction and parsed as a decimal; the price is null
when either trimmed part is empty, and null when the joined string parses to
NaN; parts 38 and 90 give 38.90, and a non-numeric integer part gives null. -/
theorem c3_price_composition :
    (∀ m f, jsTrim m = "" ∨ jsTrim f = "" → composePrice m f = none) ∧
    (∀ m f, (jsParseFloat (jsTrim m ++ "." ++ jsTrim f)).isNaN = true →
        composePrice m f = none) ∧
    (∀ m f v, composePrice m f = some v →
        v = jsParseFloat (jsTrim m ++ "." ++ jsTrim f) ∧ v.isNaN = false) ∧
    composePrice "38" "90" = some (.fin (38.90 : ℚ)) ∧
    composePrice "abc" "90" = none := by
  refine ⟨?_, ?_, ?_, ?_, rfl⟩
  · intro m f h
    rcases h with h | h <;> simp [composePrice, h]
  · intro m f h
    by_cases h1 : jsTrim m = ""
    · simp [composePrice, h1]
    · by_cases h2 : jsTrim f = ""
      · simp [composePrice, h2]
      · simp [composePrice, h1, h2, h]
  · intro m f v hv
    by_cases h1 : jsTrim m = ""
    · simp [composePrice, h1] at hv
    · by_cases h2 : jsTrim f = ""
      · simp [composePrice, h2] at hv
      · by_cases h3 : (jsParseFloat (jsTrim m ++ "." ++ jsTrim f)).isNaN = true
        · simp [composePrice, h1, h2, h3] at hv
        · simp [composePrice, h1, h2, h3] at hv
          simp [← hv]
          simpa using h3
  · have h1 : composePrice "38" "90" = some ((ParsedFloat.fin 38 90 2 0).value) := rfl
    have h2 : (ParsedFloat.fin 38 90 2 0).value = .fin (38.90 : ℚ) := by
      simp [ParsedFloat.value, pow10]
      norm_num
    rw [h1, h2]

/-- C3 witness: the conditional parts of the claim evaluated at concrete
inputs through the theorem. -/
theorem c3_price_composition_witness :
    (jsTrim "38" = "" ∨ jsTrim " " = "") ∧ composePrice "38" " " = none ∧
    (jsParseFloat (jsTrim "abc" ++ "." ++ jsTrim "90")).isNaN = true ∧
    composePrice "abc" "90" = none :=
  ⟨Or.inr rfl, c3_price_composition.1 "38" " " (Or.inr rfl),
   by decide, c3_price_composition.2.1 "abc" "90" (by decide)⟩

/-- C2: price-history analysis — latest is the head of the most-recent-first
series (null when empty), previous the second element (null below two
elements); the rate is null whenever either row is missing or the previous
price is null or exactly zero, and otherwise is
`((latest.price - previous.price) / previous.price) * 100` rounded half-up to
2 decimals; the 25/20 series gives 25.00, a singleton gives nulls, and a zero
previous price gives null for every latest. -/
theorem c2_price_history :
    (∀ series : List PriceRow, getLatestPrice series = series.head?) ∧
    (∀ series : List PriceRow, getPreviousPrice series = series.tail.head?) ∧
    (∀ series, getPreviousPrice series = none →
        (enrichProduct series).priceChangeRate = none) ∧
    (∀ series p, getPreviousPrice series = some p → p.price = none →
        (enrichProduct series).priceChangeRate = none) ∧
    (∀ series p, getPreviousPrice series = some p → p.price = some (.fin 0) →
        (enrichProduct series).priceChangeRate = none) ∧
    (∀ (l p : PriceRow) rest (a b : ℚ), l.price = some (.fin a) →
        p.price = some (.fin b) → b ≠ 0 →
        (enrichProduct (l :: p :: rest)).priceChangeRate =
          some (.fin (specRoundHalfUp2 ((a - b) / b * 100)))) ∧
    ((enrichProduct [⟨"P", some (.fin 25), none, "t2", none⟩,
                     ⟨"P", some (.fin 20), none, "t1", none⟩]).latestPrice
        = some (.fin 25) ∧
     (enrichProduct [⟨"P", some (.fin 25), none, "t2", none⟩,
                     ⟨"P", some (.fin 20), none, "t1", none⟩]).previousPrice
        = some (.fin 20) ∧
     (enrichProduct [⟨"P", some (.fin 25), none, "t2", none⟩,
                     ⟨"P", some (.fin 20), none, "t1", none⟩]).priceChangeRate
        = some (.fin 25)) ∧
    (∀ r : PriceRow, (enrichProduct [r]).previousPrice = none ∧
        (enrichProduct [r]).priceChangeRate = none) := by
  refine ⟨?_, ?_, ?_, ?_, ?_, ?_, ⟨rfl, rfl, ?_⟩, ?_⟩
  · intro series; cases series <;> rfl
  · intro series
    cases series with
    | nil => rfl
    | cons a t => cases t <;> rfl
  · intro series h
    cases series with
    | nil => rfl
    | cons a t =>
      cases t with
      | nil => rfl
      | cons b t2 => simp [getPreviousPrice] at h
  · intro series p h hp
    cases series with
    | nil => rfl
    | cons a t =>
      cases t with
      | nil => rfl
      | cons b t2 =>
        simp [getPreviousPrice] at h
        subst h
        simp [enrichProduct, getLatestPrice, getPreviousPrice, hp]
  · intro series p h hp
    cases series with
    | nil => rfl
    | cons a t =>
      cases t with
      | nil => rfl
      | cons b t2 =>
        simp [getPreviousPrice] at h
        subst h
        simp [enrichProduct, getLatestPrice, getPreviousPrice, hp]
  · intro l p rest a b hl hp hb
    simp [enrichProduct, getLatestPrice, getPreviousPrice, hl, hp, hb,
          jsColToNumber, jsSub, jsDiv, jsMul100, jsToFixed2Round, specRoundHalfUp2]
  · have h : (enrichProduct [⟨"P", some (.fin 25), none, "t2", none⟩,
        ⟨"P", some (.fin 20), none, "t1", none⟩]).priceChangeRate =
        some (jsToFixed2Round (jsMul100 (jsDiv (jsSub (.fin 25) (.fin 20)) (.fin 20)))) := by
      simp [enrichProduct, getLatestPrice, getPreviousPrice, jsColToNumber]
    rw [h]
    simp [jsSub, jsDiv, jsMul100, jsToFixed2Round]
    norm_num
  · intro r
    exact ⟨rfl, rfl⟩

/-- C2 witness: the rate formula evaluated through the theorem at the
concrete 25/20 series. -/
theorem c2_price_history_witness :
    (some (JsNumber.fin 25) = some (JsNumber.fin (25 : ℚ))) ∧
    ((20 : ℚ) ≠ 0) ∧
    (enrichProduct [⟨"P", some (.fin 25), none, "t2", none⟩,
                    ⟨"P", some (.fin 20), none, "t1", none⟩]).priceChangeRate =
      some (.fin (specRoundHalfUp2 (((25 : ℚ) - 20) / 20 * 100))) :=
  ⟨rfl, by decide,
   c2_price_history.2.2.2.2.2.1
     ⟨"P", some (.fin 25), none, "t2", none⟩
     ⟨"P", some (.fin 20), none, "t1", none⟩ [] 25 20 rfl rfl (by decide)⟩

/-- C4: per-product failure isolation — the loop is compositional, so what
one product's iteration yields never changes how later products are
processed; in the concrete [A,B,C] scenario with an existing period sample
for B only, the run tracks [A,C]; extraction of A throws, is caught, and a
sample for C is still attempted and persisted. -/
theorem c4_failure_isolation :
    (∀ env now p rest, trackerLoop env now (p :: rest) =
        ((processProduct env now p).1 ++ (trackerLoop env now rest).1,
         (processProduct env now p).2 ++ (trackerLoop env now rest).2)) ∧
    productsToTrack [c4ProductA, c4ProductB, c4ProductC] [c4RowB]
      = [c4ProductA, c4ProductC] ∧
    processProduct c4Env "n" c4ProductA = (["ua"], []) ∧
    trackerJob c4Env "n" =
      .ok (["ua", "uc"], [⟨"c", some (.fin 7), some "EUR", "dc", none⟩]) :=
  ⟨fun _ _ _ _ => rfl, rfl, rfl, rfl⟩

/-- C5: the products the job processes are exactly the listed products whose
id carries no sample among the loaded period samples, in listing order (the
filtered list is a sublist of the listing, hence order-preserving). -/
theorem c5_set_difference :
    (∀ products prices (p : Product),
        p ∈ productsToTrack products prices ↔
          p ∈ products ∧ p.id ∉ prices.map (fun r => r.product_id)) ∧
    (∀ products prices, (productsToTrack products prices).Sublist products) := by
  constructor
  · intro products prices p
    simp [productsToTrack, List.mem_filter]
  · intro products prices
    exact List.filter_sublist products

/-- C7: for a processed product whose extraction succeeds, a non-null price
leads to exactly one persisted sample `{product_id, price, currency EUR,
date: the extraction result's date}` (when the insert succeeds), and a null
price leads to no row of any kind for that product. -/
theorem c7_persistence_rule (env : TrackerEnv) (now : String) (p : Product)
    (r : ExtractionResult) (hr : env.extract p.url = Except.ok r) :
    (∀ v, r.price = some v → r.date ≠ "" →
        env.persistOk (createPriceRow p.id v "EUR" r.date now) = true →
        (processProduct env now p).2 = [⟨p.id, some v, some "EUR", r.date, none⟩]) ∧
    (r.price = none → (processProduct env now p).2 = []) := by
  constructor
  · intro v hv hd hpersist
    simp [createPriceRow, hd] at hpersist
    simp [processProduct, hr, hv, createPriceRow, hd, hpersist]
  · intro hv
    simp [processProduct, hr, hv]

/-- C7 witness: both branches exercised through the theorem on concrete
environments. -/
theorem c7_persistence_rule_witness :
    (TrackerEnv.extract
        ⟨.ok [], .ok [], fun _ => .ok ⟨"i", "u", some (.fin 7), none, "d"⟩, fun _ => true⟩
        "u" = Except.ok ⟨"i", "u", some (.fin 7), none, "d"⟩) ∧
    (processProduct
        ⟨.ok [], .ok [], fun _ => .ok ⟨"i", "u", some (.fin 7), none, "d"⟩, fun _ => true⟩
        "n" ⟨"p", "u"⟩).2 = [⟨"p", some (.fin 7), some "EUR", "d", none⟩] ∧
    (processProduct
        ⟨.ok [], .ok [], fun _ => .ok ⟨"i", "u", none, none, "d"⟩, fun _ => true⟩
        "n" ⟨"p", "u"⟩).2 = ([] : List PriceRow) :=
  ⟨rfl,
   (c7_persistence_rule
      ⟨.ok [], .ok [], fun _ => .ok ⟨"i", "u", some (.fin 7), none, "d"⟩, fun _ => true⟩
      "n" ⟨"p", "u"⟩ ⟨"i", "u", some (.fin 7), none, "d"⟩ rfl).1 (.fin 7) rfl
      (by decide) rfl,
   (c7_persistence_rule
      ⟨.ok [], .ok [], fun _ => .ok ⟨"i", "u", none, none, "d"⟩, fun _ => true⟩
      "n" ⟨"p", "u"⟩ ⟨"i", "u", none, none, "d"⟩ rfl).2 rfl⟩

/-- C8: a failure of the product listing or of the period-sample listing
makes the whole run fail with that error — the result carries no extraction
attempt and no persisted row, and the error reaches the caller (the outer
catch rethrows) — unlike the contained per-product errors. -/
theorem c8_fatal_preconditions :
    (∀ env now e, env.listProducts = Except.error e →
        trackerJob env now = Except.error e) ∧
    (∀ env now products e, env.listProducts = Except.ok products →
        env.listPricesToday = Except.error e →
        trackerJob env now = Except.error e) := by
  constructor
  · intro env now e h
    simp [trackerJob, h]
  · intro env now products e h1 h2
    simp [trackerJob, h1, h2]

/-- C8 witness: concrete failing environments run through the theorem. -/
theorem c8_fatal_preconditions_witness :
    (TrackerEnv.listProducts
        ⟨.error "db down", .ok [], fun u => .ok ⟨"i", u, none, none, "d"⟩, fun _ => true⟩
      = Except.error "db down") ∧
    trackerJob
        ⟨.error "db down", .ok [], fun u => .ok ⟨"i", u, none, none, "d"⟩, fun _ => true⟩
        "n" = Except.error "db down" ∧
    trackerJob
        ⟨.ok [c6Product], .error "db down2", fun u => .ok ⟨"i", u, none, none, "d"⟩,
         fun _ => true⟩ "n" = Except.error "db down2" :=
  ⟨rfl,
   c8_fatal_preconditions.1
     ⟨.error "db down", .ok [], fun u => .ok ⟨"i", u, none, none, "d"⟩, fun _ => true⟩
     "n" "db down" rfl,
   c8_fatal_preconditions.2
     ⟨.ok [c6Product], .error "db down2", fun u => .ok ⟨"i", u, none, none, "d"⟩,
      fun _ => true⟩ "n" [c6Product] "db down2" rfl rfl⟩

/-- C6: the claim of same-period idempotence fails on the code. The dedup
filter key is the exact ISO timestamp taken when the second run starts, while
the stored sample date is the exact timestamp taken inside the first run's
extraction; they differ within the same calendar day, so the second run's
read — although it fully reflects the first run's write — returns nothing,
the set-difference filter excludes nothing, and a second sample is written
for the product in the same period, contradicting the at-most-one-sample-per-
product-per-period intent documented in the job itself. -/
theorem c6_duplicate_sample_bug :
    trackerJob c6Env1 c6Now1 = .ok (["purl"], [c6Row1]) ∧
    getAllPricesByDate [c6Row1] c6Now2 = [] ∧
    trackerJob c6Env2 c6Now2 = .ok (["purl"], [c6Row2]) ∧
    (([c6Row1] ++ [c6Row2]).filter (fun r => r.product_id == "pid")).length = 2 ∧
    c6Date1 ≠ c6Now2 :=
  ⟨rfl, rfl, rfl, rfl, by decide⟩

/-- C10 counterexample: the extracted title can be the empty string, which is
non-null, yet the created product's title falls back to the request's name —
the JS fallback tests falsiness, not nullness. -/
theorem c10_title_counterexample :
    postProduct ⟨"N", "u"⟩ none ⟨"id1", "u", none, some "", "d"⟩ "d" =
      .created ⟨"id1", "N", "u", "N"⟩ [] none "d" ∧ ("N" : String) ≠ "" :=
  ⟨rfl, by decide⟩

/-- C10 (amended): for a validated create request whose URL matches no
existing active product, the created product's id is the extraction
fingerprint carried by the scrape result and its title is the extracted
title when that is non-null and non-empty, falling back to the request's
name when the extracted title is null or empty; a null scraped price still
creates the product but writes no initial price row. -/
theorem c10_create_product (v : ValidatedCreate) (scraped : ExtractionResult)
    (now : String) :
    postProduct v none scraped now =
      .created ⟨scraped.id, jsOrString scraped.title v.name, scraped.url, v.name⟩
        (match scraped.price with
         | some pv => [createPriceRow scraped.id pv "EUR" scraped.date now]
         | none => []) scraped.price scraped.date ∧
    (∀ t, scraped.title = some t → t ≠ "" → jsOrString scraped.title v.name = t) ∧
    ((scraped.title = none ∨ scraped.title = some "") →
        jsOrString scraped.title v.name = v.name) ∧
    (scraped.price = none →
      postProduct v none scraped now =
        .created ⟨scraped.id, jsOrString scraped.title v.name, scraped.url, v.name⟩
          [] none scraped.date) := by
  refine ⟨rfl, ?_, ?_, ?_⟩
  · intro t ht hne
    simp [jsOrString, ht, hne]
  · intro h
    rcases h with h | h <;> simp [jsOrString, h]
  · intro h
    simp [postProduct, h]

/-- C10 witness: the amended claim exercised at concrete inputs through the
theorem. -/
theorem c10_create_product_witness :
    ((some "T" : Option String) = some "T") ∧ ("T" : String) ≠ "" ∧
    jsOrString (some "T") "N" = "T" ∧
    ((none : Option String) = none ∨ (none : Option String) = some "") ∧
    jsOrString none "N" = "N" ∧
    postProduct ⟨"N", "u"⟩ none ⟨"id1", "u", none, some "T", "d"⟩ "d" =
      .created ⟨"id1", "T", "u", "N"⟩ [] none "d" :=
  ⟨rfl, by decide,
   (c10_create_product ⟨"N", "u"⟩ ⟨"id1", "u", none, some "T", "d"⟩ "d").2.1
     "T" rfl (by decide),
   Or.inl rfl,
   (c10_create_product ⟨"N", "u"⟩ ⟨"id1", "u", none, none, "d"⟩ "d").2.2.1
     (Or.inl rfl),
   (c10_create_product ⟨"N", "u"⟩ ⟨"id1", "u", none, some "T", "d"⟩ "d").2.2.2 rfl⟩

end PriceTracker
